import Mathlib

/-!
Verification development for the Sinhala handwritten-letter recognition
front end (a React canvas component, `src/App.tsx`, plus a second observed
variant of the same file).  The component state, the canvas 2D context and
the submission routine `handlePredict` are embedded shallowly below;
asynchronous effects (canvas rasterization, `fetch`, `response.json`) are
modelled by an explicit outcome value fed to the handler.
-/

/-- JS truthiness of an optional string field: `undefined` and the empty
string are falsy, every other string is truthy. -/
def truthy : Option String → Bool
  | some s => !s.isEmpty
  | none => false

/-- The JSON body shape `PredictionResponse` from `App.tsx` (the unused
`confidence` number is omitted: the component never reads it). -/
structure PredictionResponse where
  prediction : Option String
  error : Option String
  predicted_letter : Option String
deriving DecidableEq, Repr

/-- A resolved `fetch` response: the HTTP status and the parsed JSON body. -/
structure HttpResponse where
  status : Nat
  data : PredictionResponse
deriving DecidableEq, Repr

/-- `Response.ok` of the fetch API: status in the range 200..299. -/
def HttpResponse.ok (r : HttpResponse) : Bool :=
  200 ≤ r.status && r.status < 300

/-- Outcome of the awaited part of `handlePredict`: either every await
resolved and a response with a parsed JSON body is available, or one of
the three awaited steps rejected.  A rejection carries `some msg` when the
thrown value was an `Error` with message `msg`, and `none` otherwise. -/
inductive SubmitOutcome where
  | blobFailed (msg : Option String)
  | fetchThrew (msg : Option String)
  | jsonFailed (msg : Option String)
  | resolved (resp : HttpResponse)
deriving DecidableEq, Repr

/-- The React component state of `App`. -/
structure AppState where
  isDrawing : Bool
  isLoading : Bool
  prediction : String
  error : String
  strokeWidth : Nat
deriving DecidableEq, Repr

/-- The component state at first render: flags down, both result strings
empty, stroke width 8. -/
def initAppState : AppState :=
  { isDrawing := false, isLoading := false, prediction := "", error := "",
    strokeWidth := 8 }

/-- The hard-coded backend origin that appears in the catch-branch message. -/
def backendOrigin : String := "http://127.0.0.1:5000"

/-- The hard-coded endpoint URL of the POST request. -/
def predictUrl : String := "http://127.0.0.1:5000/predict"

/-- The multipart form field name passed to formData.append together with
the file name drawing.png. -/
def uploadFieldName : String := "file"

/-- The one HTTP request `handlePredict` can issue. -/
structure PredictRequest where
  url : String
  method : String
  fieldName : String
  fileName : String
deriving DecidableEq, Repr

/-- The request built by `handlePredict`. -/
def predictRequest : PredictRequest :=
  { url := predictUrl, method := "POST", fieldName := uploadFieldName,
    fileName := "drawing.png" }

/-- Requests actually issued for a given outcome: none when the canvas
rasterization already rejected (the `fetch` line is never reached),
exactly one otherwise. -/
def requestsOf : SubmitOutcome → List PredictRequest
  | .blobFailed _ => []
  | .fetchThrew _ => [predictRequest]
  | .jsonFailed _ => [predictRequest]
  | .resolved _ => [predictRequest]

/-- The invalid-response message of the missing-success-field branch. -/
def invalidResponseMsg : String :=
  "Invalid response from server: No prediction field found"

/-- The catch-branch message: wraps the thrown message and names the
backend origin. -/
def catchMessage (errorMessage : String) : String :=
  "Error: " ++ errorMessage ++
    ". Make sure the backend server is running on " ++ backendOrigin

/-- The synchronous prefix of `handlePredict` after the canvas null check:
set the loading flag and clear the error and prediction strings. -/
def predictStart (s : AppState) : AppState :=
  { s with isLoading := true, error := "", prediction := "" }

/-- The try/catch/finally part of `handlePredict`, given the outcome of the
awaited steps.  On a resolved response: a non-ok status or a truthy `error`
field surfaces the server message (or a generic status line when the field
is falsy); otherwise a truthy `predicted_letter` becomes the prediction and
a falsy one yields the invalid-response error.  Any rejection lands in the
catch branch.  The finally branch resets the loading flag. -/
def predictFinish (o : SubmitOutcome) (s : AppState) : AppState :=
  let s1 :=
    match o with
    | .resolved r =>
      if !r.ok || truthy r.data.error then
        let errorMsg :=
          if truthy r.data.error then r.data.error.getD ""
          else "HTTP error! status: " ++ toString r.status
        { s with error := errorMsg }
      else
        if truthy r.data.predicted_letter then
          { s with prediction := r.data.predicted_letter.getD "" }
        else
          { s with error := invalidResponseMsg }
    | .blobFailed m | .fetchThrew m | .jsonFailed m =>
      let errorMessage := m.getD "Failed to connect to the API"
      { s with error := catchMessage errorMessage }
  { s1 with isLoading := false }

/-- `handlePredict` from `src/App.tsx`: returns the next component state
and the list of HTTP requests issued.  When the canvas ref is null it
returns at once, touching nothing and issuing nothing. -/
def handlePredict (canvasPresent : Bool) (o : SubmitOutcome) (s : AppState) :
    AppState × List PredictRequest :=
  if canvasPresent then (predictFinish o (predictStart s), requestsOf o)
  else (s, [])

/-!
Canvas model.  The 2D context holds a pixel buffer (the drawing surface is
black-and-white: `true` is a white pixel, `false` a black one) together with
the context attributes the component sets.  Painting operations are clipped
to the canvas dimensions, as in the HTML canvas.  Stroke rasterization
(which pixels a path with round caps covers) is browser-defined and not in
the source; it enters the model as an abstract coverage predicate.
-/

/-- An HTML canvas with its 2D context state.  `pixels x y = true` means
the pixel at column `x`, row `y` is white. -/
structure CanvasCtx where
  width : Nat
  height : Nat
  pixels : Nat → Nat → Bool
  lineWidth : Nat
  strokeStyle : String
  fillStyle : String
  lineCap : String
  lineJoin : String

/-- Colour denoted by a CSS style string in this two-colour model: the
component only ever uses `#FFFFFF` (white) and `#000000` (black). -/
def styleIsWhite (s : String) : Bool := s == "#FFFFFF"

/-- `ctx.fillRect(x0, y0, w, h)`: paints the rectangle with the current
fill style, clipped to the canvas. -/
def ctxFillRect (c : CanvasCtx) (x0 y0 w h : Nat) : CanvasCtx :=
  { c with pixels := fun x y =>
      if (x0 ≤ x && x < x0 + w && y0 ≤ y && y < y0 + h)
          && (x < c.width && y < c.height) then
        styleIsWhite c.fillStyle
      else c.pixels x y }

/-- `ctx.stroke()` for a finished path segment: `cover w x y` says whether
the rasterization by the browser of the path at line width `w` covers pixel
`(x, y)`.  Painted pixels take the stroke style; painting is clipped to the
canvas. -/
def paintStroke (cover : Nat → Nat → Nat → Bool) (c : CanvasCtx) : CanvasCtx :=
  { c with pixels := fun x y =>
      if cover c.lineWidth x y && (x < c.width && y < c.height) then
        styleIsWhite c.strokeStyle
      else c.pixels x y }

/-- A canvas element before the mount effect ran: attributes at their HTML
defaults, an empty (all transparent-black) buffer of default size. -/
def freshCanvas : CanvasCtx :=
  { width := 300, height := 150, pixels := fun _ _ => false,
    lineWidth := 1, strokeStyle := "#000000", fillStyle := "#000000",
    lineCap := "butt", lineJoin := "miter" }

/-- The canvas-init `useEffect` body: sets the canvas size to 280 by 280
(an assignment to `canvas.width` or `canvas.height` wipes the pixel buffer),
fills the surface black, and sets the drawing styles with the current
stroke width.  Its dependency array in the source is `[strokeWidth]`. -/
def initEffect (strokeWidth : Nat) (c : CanvasCtx) : CanvasCtx :=
  let c1 := { c with width := 280, height := 280, pixels := fun _ _ => false }
  let c2 := ctxFillRect { c1 with fillStyle := "#000000" } 0 0 280 280
  { c2 with
    strokeStyle := "#FFFFFF", lineWidth := strokeWidth,
    lineCap := "round", lineJoin := "round" }

/-- The second `useEffect` body: on a stroke-width change, set
`ctx.lineWidth` only. -/
def lineWidthEffect (strokeWidth : Nat) (c : CanvasCtx) : CanvasCtx :=
  { c with lineWidth := strokeWidth }

/-- What React runs on the canvas when `strokeWidth` changes: both effects
list `[strokeWidth]` as dependencies, so both re-run, in source order —
the init effect first, then the lineWidth effect. -/
def onStrokeWidthChange (strokeWidth : Nat) (c : CanvasCtx) : CanvasCtx :=
  lineWidthEffect strokeWidth (initEffect strokeWidth c)

/-- The canvas as produced at initial mount with the default stroke width. -/
def mountCanvas : CanvasCtx := initEffect 8 freshCanvas

/-- The canvas part of `clearCanvas`: set the fill style to black and fill
the whole surface. -/
def clearCtx (c : CanvasCtx) : CanvasCtx :=
  let c1 := { c with fillStyle := "#000000" }
  ctxFillRect c1 0 0 c1.width c1.height

/-- The state part of `clearCanvas`: clear the prediction and error
strings. -/
def clearState (s : AppState) : AppState :=
  { s with prediction := "", error := "" }

/-- `clearCanvas` from `App.tsx`: a no-op when the canvas ref is null,
otherwise repaint the surface black and reset prediction and error. -/
def clearCanvas (canvas : Option CanvasCtx) (s : AppState) :
    Option CanvasCtx × AppState :=
  match canvas with
  | none => (none, s)
  | some c => (some (clearCtx c), clearState s)

/-- Drawing a list of strokes (abstract coverage predicates) on a canvas,
in order. -/
def drawAll (covers : List (Nat → Nat → Nat → Bool)) (c : CanvasCtx) :
    CanvasCtx :=
  covers.foldl (fun c cv => paintStroke cv c) c


/-!
The second observed variant of the component (the unnamed source file).
Its `handlePredict` differs from the one above only by a `console.log` of
the raw response, which has no state effect; the wire-contract constants
and the submit logic are embedded separately so their agreement can be
stated. -/

namespace Part000

/-- The multipart form field name the variant passes to formData.append,
together with the file name drawing.png. -/
def uploadFieldName : String := "file"

/-- The request built by the variant of `handlePredict`. -/
def predictRequest : PredictRequest :=
  { url := "http://127.0.0.1:5000/predict", method := "POST",
    fieldName := uploadFieldName, fileName := "drawing.png" }

/-- Requests issued by the variant for a given outcome. -/
def requestsOf : SubmitOutcome → List PredictRequest
  | .blobFailed _ => []
  | .fetchThrew _ => [predictRequest]
  | .jsonFailed _ => [predictRequest]
  | .resolved _ => [predictRequest]

/-- The try/catch/finally part of the variant of `handlePredict`. -/
def predictFinish (o : SubmitOutcome) (s : AppState) : AppState :=
  let s1 :=
    match o with
    | .resolved r =>
      if !r.ok || truthy r.data.error then
        let errorMsg :=
          if truthy r.data.error then r.data.error.getD ""
          else "HTTP error! status: " ++ toString r.status
        { s with error := errorMsg }
      else
        if truthy r.data.predicted_letter then
          { s with prediction := r.data.predicted_letter.getD "" }
        else
          { s with error := "Invalid response from server: No prediction field found" }
    | .blobFailed m | .fetchThrew m | .jsonFailed m =>
      let errorMessage := m.getD "Failed to connect to the API"
      { s with error := "Error: " ++ errorMessage ++
          ". Make sure the backend server is running on " ++ "http://127.0.0.1:5000" }
  { s1 with isLoading := false }

/-- The second variant of `handlePredict`. -/
def handlePredict (canvasPresent : Bool) (o : SubmitOutcome) (s : AppState) :
    AppState × List PredictRequest :=
  if canvasPresent then
    (predictFinish o { s with isLoading := true, error := "", prediction := "" },
      requestsOf o)
  else (s, [])

end Part000

/-!
Event system.  The reachable states of the component are those produced from
the mounted initial state by the user-visible handlers: clearing, a
submission (its synchronous prefix alone, for the in-flight state, and a
complete run), moving the stroke-width slider, and the pointer handlers.
-/

/-- A user-visible event of the component. -/
inductive Event where
  | clearEv
  | predictStartEv
  | predictEv (o : SubmitOutcome)
  | strokeWidthEv (w : Nat)
  | pointerDownEv
  | drawEv (cover : Nat → Nat → Nat → Bool)
  | pointerUpEv

/-- The full component state: React state plus the canvas ref target. -/
def FullState := AppState × Option CanvasCtx

/-- One step of the component.  A submission is guarded by the canvas ref
being non-null; a stroke-width change re-runs both effects on the canvas;
`draw` paints only while the drawing flag is up. -/
def step (st : FullState) (e : Event) : FullState :=
  match e with
  | .clearEv =>
    let p := clearCanvas st.2 st.1
    (p.2, p.1)
  | .predictStartEv =>
    if st.2.isSome then (predictStart st.1, st.2) else st
  | .predictEv o =>
    ((handlePredict st.2.isSome o st.1).1, st.2)
  | .strokeWidthEv w =>
    ({ st.1 with strokeWidth := w }, st.2.map (onStrokeWidthChange w))
  | .pointerDownEv => ({ st.1 with isDrawing := true }, st.2)
  | .drawEv cover =>
    (st.1, if st.1.isDrawing then st.2.map (paintStroke cover) else st.2)
  | .pointerUpEv => ({ st.1 with isDrawing := false }, st.2)

/-- The mounted initial state. -/
def initFull : FullState := (initAppState, some mountCanvas)

/-- States reachable from the mounted initial state by component events. -/
inductive Reachable : FullState → Prop where
  | init : Reachable initFull
  | next {st : FullState} (e : Event) : Reachable st → Reachable (step st e)

/-!
Theorems.
-/

/-- Claim C10: when the canvas ref is null, `handlePredict` in both
variants returns immediately as a complete no-op — the component state is
returned unchanged (loading flag untouched, prediction and error neither
cleared nor changed) and no HTTP request is issued. -/
theorem handlePredict_noop_without_canvas (o : SubmitOutcome) (s : AppState) :
    handlePredict false o s = (s, []) ∧
    Part000.handlePredict false o s = (s, []) :=
  ⟨rfl, rfl⟩

/-- Claim C4: on every exit path of `handlePredict` that set the loading
flag (all paths with a non-null canvas — success, application error,
malformed response, and any thrown outcome alike), the loading flag is
false when the handler completes. -/
theorem handlePredict_resets_loading (o : SubmitOutcome) (s : AppState) :
    (handlePredict true o s).1.isLoading = false :=
  rfl

/-- Claim C1 (counterexample): a resolved response with HTTP 200 and body
carrying only a `prediction` field is not treated as a success — the code
consults `predicted_letter`, so this submission ends with an empty
prediction and the invalid-response error, against what the claim states. -/
theorem prediction_field_alone_is_not_recognized :
    (handlePredict true
        (.resolved ⟨200, ⟨some "අ", none, none⟩⟩) initAppState).1.prediction
      = "" ∧
    (handlePredict true
        (.resolved ⟨200, ⟨some "අ", none, none⟩⟩) initAppState).1.error
      = invalidResponseMsg ∧
    invalidResponseMsg ≠ "" :=
  ⟨rfl, rfl, by decide⟩

/-- Claim C1 (amended): for every submission whose fetch resolves with an
OK HTTP status, no truthy error field, and a non-empty `predicted_letter`
success field, `handlePredict` sets the prediction state to that label and
leaves the error state empty. -/
theorem handlePredict_success_sets_prediction (r : HttpResponse)
    (s : AppState) (p : String) (hok : r.ok = true)
    (herr : truthy r.data.error = false)
    (hp : r.data.predicted_letter = some p) (hne : p.isEmpty = false) :
    (handlePredict true (.resolved r) s).1.prediction = p ∧
    (handlePredict true (.resolved r) s).1.error = "" := by
  have h1 : truthy (some p) = true := by simp [truthy, hne]
  simp [handlePredict, predictFinish, predictStart, hok, herr, h1, hp]

/-- Witness for C1: the response with status 200 and body containing
`predicted_letter` set to a concrete letter yields that prediction and no
error. -/
theorem handlePredict_success_sets_prediction_witness :
    (handlePredict true
        (.resolved ⟨200, ⟨none, none, some "අ"⟩⟩) initAppState).1.prediction
      = "අ" ∧
    (handlePredict true
        (.resolved ⟨200, ⟨none, none, some "අ"⟩⟩) initAppState).1.error
      = "" :=
  handlePredict_success_sets_prediction ⟨200, ⟨none, none, some "අ"⟩⟩
    initAppState "අ" rfl rfl rfl rfl

/-- Claim C7: for every submission that throws (canvas rasterization,
fetch, or body parsing), `handlePredict` sets the error to the catch
message wrapping the underlying cause, that message ends with the
configured backend origin, and no prediction is set. -/
theorem handlePredict_thrown_wraps_cause (o : SubmitOutcome)
    (m : Option String) (s : AppState)
    (h : o = .blobFailed m ∨ o = .fetchThrew m ∨ o = .jsonFailed m) :
    (handlePredict true o s).1.error
      = catchMessage (m.getD "Failed to connect to the API") ∧
    (∃ pre : String, (handlePredict true o s).1.error = pre ++ backendOrigin) ∧
    (handlePredict true o s).1.prediction = "" := by
  rcases h with h | h | h <;> subst h <;>
    exact ⟨rfl, ⟨_, rfl⟩, rfl⟩

/-- Witness for C7: a fetch rejection with the browser message "Failed to
fetch" produces the wrapping error message that names the backend origin,
and no prediction. -/
theorem handlePredict_thrown_wraps_cause_witness :
    (handlePredict true (.fetchThrew (some "Failed to fetch"))
        initAppState).1.error
      = catchMessage "Failed to fetch" ∧
    (∃ pre : String,
      (handlePredict true (.fetchThrew (some "Failed to fetch"))
          initAppState).1.error = pre ++ backendOrigin) ∧
    (handlePredict true (.fetchThrew (some "Failed to fetch"))
        initAppState).1.prediction = "" :=
  handlePredict_thrown_wraps_cause (.fetchThrew (some "Failed to fetch"))
    (some "Failed to fetch") initAppState (Or.inr (Or.inl rfl))

/-- Claim C2: for every submission whose response has a non-OK HTTP status
or a truthy error field, `handlePredict` leaves the prediction empty, sets
the error to the server-supplied text verbatim when a non-empty error
field is present, and falls back to the generic status line when the field
is absent. -/
theorem handlePredict_error_branch (r : HttpResponse) (s : AppState)
    (h : r.ok = false ∨ truthy r.data.error = true) :
    (handlePredict true (.resolved r) s).1.prediction = "" ∧
    (∀ e : String, r.data.error = some e → e.isEmpty = false →
      (handlePredict true (.resolved r) s).1.error = e) ∧
    (r.data.error = none →
      (handlePredict true (.resolved r) s).1.error
        = "HTTP error! status: " ++ toString r.status) := by
  refine ⟨?_, ?_, ?_⟩
  · have hcond : (!r.ok || truthy r.data.error) = true := by
      rcases h with h | h <;> simp [h]
    simp [handlePredict, predictFinish, predictStart, hcond]
  · intro e he hne
    simp [handlePredict, predictFinish, predictStart, he, truthy, hne]
  · intro he
    have hok : r.ok = false := by
      rcases h with h | h
      · exact h
      · rw [he] at h; simp [truthy] at h
    simp [handlePredict, predictFinish, predictStart, he, truthy, hok]

/-- Witness for C2: a response with HTTP 500 and body carrying the error
text "model unavailable" surfaces exactly that text and no prediction. -/
theorem handlePredict_error_branch_witness :
    (handlePredict true
        (.resolved ⟨500, ⟨none, some "model unavailable", none⟩⟩)
        initAppState).1.error = "model unavailable" ∧
    (handlePredict true
        (.resolved ⟨500, ⟨none, some "model unavailable", none⟩⟩)
        initAppState).1.prediction = "" := by
  have h := handlePredict_error_branch
    ⟨500, ⟨none, some "model unavailable", none⟩⟩ initAppState
    (Or.inl (by decide))
  exact ⟨h.2.1 "model unavailable" rfl (by decide), h.1⟩

/-- Claim C3: for every submission whose response has an OK HTTP status,
no error field, and no truthy `predicted_letter` success field,
`handlePredict` sets the error state to the invalid-response message and
no prediction — it never leaves both prediction and error empty. -/
theorem handlePredict_malformed_response (r : HttpResponse) (s : AppState)
    (hok : r.ok = true) (herr : r.data.error = none)
    (hp : truthy r.data.predicted_letter = false) :
    (handlePredict true (.resolved r) s).1.error = invalidResponseMsg ∧
    (handlePredict true (.resolved r) s).1.prediction = "" ∧
    ¬((handlePredict true (.resolved r) s).1.prediction = "" ∧
      (handlePredict true (.resolved r) s).1.error = "") := by
  have ht : truthy r.data.error = false := by simp [herr, truthy]
  refine ⟨?_, ?_, ?_⟩
  · simp [handlePredict, predictFinish, predictStart, hok, ht, hp]
  · simp [handlePredict, predictFinish, predictStart, hok, ht, hp]
  · intro hc
    have : invalidResponseMsg = "" := by
      have h1 :
          (handlePredict true (.resolved r) s).1.error = invalidResponseMsg := by
        simp [handlePredict, predictFinish, predictStart, hok, ht, hp]
      rw [h1] at hc
      exact hc.2.symm ▸ rfl
    simp [invalidResponseMsg] at this

/-- Witness for C3: the empty body with HTTP 200 yields the
invalid-response error and no prediction. -/
theorem handlePredict_malformed_response_witness :
    (handlePredict true (.resolved ⟨200, ⟨none, none, none⟩⟩)
        initAppState).1.error = invalidResponseMsg ∧
    (handlePredict true (.resolved ⟨200, ⟨none, none, none⟩⟩)
        initAppState).1.prediction = "" :=
  ⟨(handlePredict_malformed_response ⟨200, ⟨none, none, none⟩⟩ initAppState
      rfl rfl rfl).1,
   (handlePredict_malformed_response ⟨200, ⟨none, none, none⟩⟩ initAppState
      rfl rfl rfl).2.1⟩

/-- Claim C6 (counterexample): the two observed source variants do not
disagree on the wire contract — both append the image under the multipart
field name "file" (neither uses "image"), and both consult the
`predicted_letter` response field (a body carrying only `prediction` is
rejected by both, a body carrying `predicted_letter` succeeds in both);
their submit routines are definitionally equal. -/
theorem variants_agree_on_wire_contract :
    Part000.uploadFieldName = uploadFieldName ∧
    uploadFieldName = "file" ∧
    Part000.handlePredict = handlePredict ∧
    (handlePredict true (.resolved ⟨200, ⟨some "ක", none, none⟩⟩)
        initAppState).1.prediction = "" ∧
    (Part000.handlePredict true (.resolved ⟨200, ⟨some "ක", none, none⟩⟩)
        initAppState).1.prediction = "" ∧
    (handlePredict true (.resolved ⟨200, ⟨none, none, some "ක"⟩⟩)
        initAppState).1.prediction = "ක" ∧
    (Part000.handlePredict true (.resolved ⟨200, ⟨none, none, some "ක"⟩⟩)
        initAppState).1.prediction = "ක" :=
  ⟨rfl, rfl, rfl, rfl, rfl, rfl, rfl⟩

/-- Claim C6 (amended): the two observed source variants agree on both
points of the wire contract — the multipart upload field name ("file" in
both) and the response field consulted for success (`predicted_letter` in
both); their submit routines are equivalent (the sources differ only by a
console.log with no state effect). -/
theorem variants_equivalent :
    Part000.handlePredict = handlePredict ∧
    Part000.uploadFieldName = uploadFieldName ∧
    Part000.predictRequest = predictRequest ∧
    Part000.requestsOf = requestsOf :=
  ⟨rfl, rfl, rfl, rfl⟩

/-- `paintStroke` does not change the canvas dimensions. -/
theorem paintStroke_dims (cover : Nat → Nat → Nat → Bool) (c : CanvasCtx) :
    (paintStroke cover c).width = c.width ∧
    (paintStroke cover c).height = c.height :=
  ⟨rfl, rfl⟩

/-- Drawing any list of strokes keeps the dimensions and keeps every
pixel outside the canvas bounds black: painting is clipped. -/
theorem drawAll_dims_oob (covers : List (Nat → Nat → Nat → Bool))
    (c : CanvasCtx) (hw : c.width = 280) (hh : c.height = 280)
    (hob : ∀ x y : Nat, 280 ≤ x ∨ 280 ≤ y → c.pixels x y = false) :
    (drawAll covers c).width = 280 ∧ (drawAll covers c).height = 280 ∧
    (∀ x y : Nat, 280 ≤ x ∨ 280 ≤ y → (drawAll covers c).pixels x y = false) := by
  induction covers generalizing c with
  | nil => exact ⟨hw, hh, hob⟩
  | cons cv covers ih =>
    refine ih (paintStroke cv c) hw hh ?_
    intro x y hxy
    have hx : (x < c.width && y < c.height) = false := by
      rcases hxy with hxy | hxy <;> rw [hw, hh] <;> simp <;> omega
    simp only [paintStroke, hx, Bool.and_false, Bool.false_eq_true,
      if_false]
    exact hob x y hxy

/-- Every pixel of the canvas produced at mount is black. -/
theorem mountCanvas_pixels_black (x y : Nat) :
    mountCanvas.pixels x y = false := by
  simp only [mountCanvas, initEffect, ctxFillRect, freshCanvas, styleIsWhite]
  split <;> simp

/-- Claim C9: drawing any sequence of strokes on the mounted canvas and
then invoking `clearCanvas` leaves the pixel buffer exactly in the state
produced at initial mount (the 280 by 280 surface filled solid black) and
resets the prediction and error strings to empty. -/
theorem clear_after_drawing_equals_mount
    (covers : List (Nat → Nat → Nat → Bool)) (s : AppState) :
    clearCanvas (some (drawAll covers mountCanvas)) s
      = (some (clearCtx (drawAll covers mountCanvas)), clearState s) ∧
    (clearCtx (drawAll covers mountCanvas)).pixels = mountCanvas.pixels ∧
    (clearState s).prediction = "" ∧ (clearState s).error = "" := by
  obtain ⟨hw, hh, hob⟩ := drawAll_dims_oob covers mountCanvas rfl rfl
    (fun x y h => mountCanvas_pixels_black x y)
  refine ⟨rfl, ?_, rfl, rfl⟩
  funext x y
  rw [mountCanvas_pixels_black x y]
  simp only [clearCtx, ctxFillRect, styleIsWhite, hw, hh]
  by_cases hx : x < 280 ∧ y < 280
  · have : ((0 ≤ x && x < 0 + 280 && (0 ≤ y) && y < 0 + 280)
        && (x < 280 && y < 280)) = true := by
      simp [hx.1, hx.2]
    rw [this]
    simp
  · have hc : ((0 ≤ x && x < 0 + 280 && (0 ≤ y) && y < 0 + 280)
        && (x < 280 && y < 280)) = false := by
      rcases Nat.lt_or_ge x 280 with h1 | h1
      · rcases Nat.lt_or_ge y 280 with h2 | h2
        · exact absurd ⟨h1, h2⟩ hx
        · simp; omega
      · simp; omega
    rw [hc]
    simp only [Bool.false_eq_true, if_false]
    exact hob x y (by omega)

/-- Claim C8 (code bug evaluation): both `useEffect` hooks list the stroke
width as a dependency, so moving the slider re-runs the init effect, which
reassigns the canvas size and repaints the surface black — erasing pixels
drawn before the change.  Concretely: after mount, a stroke paints pixel
(10, 10) white; changing the stroke width from 8 to 9 turns that pixel
black again, while the intended behaviour (witnessed by the otherwise
redundant second effect, which only updates the line width) leaves it
white. -/
theorem strokeWidth_change_wipes_drawn_pixels :
    (paintStroke (fun _ x y => x == 10 && y == 10) mountCanvas).pixels 10 10
      = true ∧
    (onStrokeWidthChange 9
        (paintStroke (fun _ x y => x == 10 && y == 10) mountCanvas)).pixels
        10 10
      = false ∧
    (lineWidthEffect 9
        (paintStroke (fun _ x y => x == 10 && y == 10) mountCanvas)).pixels
        10 10
      = true ∧
    (lineWidthEffect 9
        (paintStroke (fun _ x y => x == 10 && y == 10) mountCanvas)).lineWidth
      = 9 := by
  refine ⟨?_, ?_, ?_, ?_⟩ <;> decide

/-- A complete submission run leaves at most one of the two result
strings non-empty: the start clears both, and every branch of the finish
sets at most one of them. -/
theorem predictFinish_atMostOne (o : SubmitOutcome) (s : AppState) :
    (predictFinish o (predictStart s)).prediction = "" ∨
    (predictFinish o (predictStart s)).error = "" := by
  cases o with
  | resolved r =>
    simp only [predictFinish, predictStart]
    split
    · left; rfl
    · split
      · right; rfl
      · left; rfl
  | blobFailed m => left; rfl
  | fetchThrew m => left; rfl
  | jsonFailed m => left; rfl

/-- Every component event preserves the at-most-one-result property. -/
theorem step_atMostOne (st : FullState) (e : Event)
    (ih : st.1.prediction = "" ∨ st.1.error = "") :
    (step st e).1.prediction = "" ∨ (step st e).1.error = "" := by
  obtain ⟨s, c⟩ := st
  cases e with
  | clearEv =>
    cases c with
    | none => exact ih
    | some cc => left; rfl
  | predictStartEv =>
    cases c with
    | none => exact ih
    | some cc => left; rfl
  | predictEv o =>
    cases c with
    | none => exact ih
    | some cc => exact predictFinish_atMostOne o s
  | strokeWidthEv w => exact ih
  | pointerDownEv => exact ih
  | drawEv cover => exact ih
  | pointerUpEv => exact ih

/-- Claim C5: in every reachable state of the component, at most one of
the prediction and error strings is non-empty.  Every submission attempt
clears both at its start, `clearCanvas` clears both, and each completion
path sets at most one of them — these are the cases of `step_atMostOne`
and `predictFinish_atMostOne`. -/
theorem reachable_at_most_one_result (st : FullState) (h : Reachable st) :
    st.1.prediction = "" ∨ st.1.error = "" := by
  induction h with
  | init => left; rfl
  | next e _ ih => exact step_atMostOne _ e ih

/-- Witness for C5: the state after one complete successful submission
from the mounted initial state is reachable and satisfies the invariant. -/
theorem reachable_at_most_one_result_witness :
    (step initFull
        (Event.predictEv (.resolved ⟨200, ⟨none, none, some "අ"⟩⟩))).1.prediction
        = "" ∨
    (step initFull
        (Event.predictEv (.resolved ⟨200, ⟨none, none, some "අ"⟩⟩))).1.error
        = "" :=
  reachable_at_most_one_result _
    (Reachable.next (Event.predictEv (.resolved ⟨200, ⟨none, none, some "අ"⟩⟩))
      Reachable.init)
